import Mathlib

/-!
Shallow embedding of the saf-chem/password-manager core:
`db_manager/database.py` (DBManager, the entity managers and ProxyAction)
and `database_manager/models.py` (SQLAlchemyManager.del_user), together
with theorems settling the specification claims about them.

Python exceptions are embedded as an explicit error type carried in
`Except`; SQLAlchemy stores are embedded as lists of records; Python
dicts holding record data or query filters are embedded as a record of
optional fields (a missing key is `none`).
-/

/-- Python-level failures that the embedded code can raise.  The spec's
error taxonomy maps onto them as follows: `ValidationError` is pydantic's
exception of that name, `TypeMismatchError` is Python `TypeError`,
`NotFoundError` is the `IndexError` raised by `get_secret`,
`DecryptionError` is the cipher's failure on a wrong key, and
`StoreError` is a persistence-layer exception such as
`sqlalchemy.OperationalError`. -/
inductive PyError where
  | validationError
  | typeError
  | keyError
  | indexError
  | attributeError
  | operationalError
  | decryptionError
  deriving DecidableEq, Repr

namespace EncModels

/-- Modelled from the spec: `encryption_manager/models.py` is not under
`src/`; the spec (§4.1) describes `get_hash` as a pure, deterministic,
one-way derivation of a verifier from its input.  One-wayness has no
shallow counterpart, so the hash is modelled symbolically as an injective
tagging of the input, the standard idealisation of a collision-free
digest. -/
def get_hash (value : String) : String :=
  "#" ++ value

end EncModels

namespace AESCipher

/-- Modelled from the spec: `encryption_manager.models.AESCipher` is not
under `src/`; the spec (§4.2) requires a symmetric authenticated cipher.
Ciphertext is modelled symbolically as the key joined to the plaintext,
so that decryption can recover the plaintext exactly when it holds the
encrypting key. -/
def encrypt (key raw : String) : String :=
  String.mk (key.data ++ ':' :: raw.data)

/-- Modelled from the spec: authenticated decryption fails
deterministically with `DecryptionError` when the key is wrong or the
ciphertext is malformed (§4.2), and otherwise recovers the plaintext. -/
def decrypt (key enc : String) : Except PyError String :=
  if enc.data.take (key.data.length + 1) = key.data ++ [':'] then
    .ok (String.mk (enc.data.drop (key.data.length + 1)))
  else
    .error .decryptionError

end AESCipher

namespace DBManager

/-- `DBManager.generate_hash`: hash of the value's utf-8 encoding via the
encryption manager's `get_hash`. -/
def generate_hash (value : String) : String :=
  EncModels.get_hash value

/-- Key derivation inside `DBManager.__get_secret_obj`: the AES key is
`generate_hash(username + password)`. -/
def secret_key (username password : String) : String :=
  generate_hash (username ++ password)

/-- `DBManager.encrypt_value`: encrypt `raw` under the key derived from
the user's credentials. -/
def encrypt_value (username password raw : String) : String :=
  AESCipher.encrypt (secret_key username password) raw

/-- `DBManager.decrypt_value`: decrypt `enc` under the key derived from
the user's credentials. -/
def decrypt_value (username password enc : String) : Except PyError String :=
  AESCipher.decrypt (secret_key username password) enc

/-- `DBManager.get_obj`: first record matching the equality filters, or
`None`.  The SQLAlchemy query `filter_by(**filters).first()` is embedded
as `find?` over the store with a caller-supplied filter predicate. -/
def get_obj {α φ : Type} (matchesF : φ → α → Bool) (store : List α) (filters : φ) :
    Option α :=
  store.find? (matchesF filters)

/-- `DBManager.create_obj`: validate `data` against the schema, then add
and commit.  Only `ValidationError` is caught (returning `False`); an
exception raised by the persistence layer during add/commit — embedded by
the `fault` flag — escapes to the caller. -/
def create_obj {α δ : Type} (validate : δ → Option α) (store : List α) (data : δ)
    (fault : Bool) : Except PyError (List α × Bool) :=
  match validate data with
  | none => .ok (store, false)
  | some a => if fault then .error .operationalError else .ok (store ++ [a], true)

/-- `DBManager.update_objects`: bulk update of every record matching the
filters, inside a bare `except:` that converts any exception — embedded by
the `fault` flag — into `False` with the store unchanged (the commit is
never reached). -/
def update_objects {α φ δ : Type} (matchesF : φ → α → Bool) (applyF : δ → α → α)
    (store : List α) (filters : φ) (data : δ) (fault : Bool) :
    Except PyError (List α × Bool) :=
  if fault then .ok (store, false)
  else .ok (store.map (fun r => if matchesF filters r then applyF data r else r), true)

/-- `DBManager.delete_objects`: bulk delete of every record matching the
filters, inside a bare `except:` that converts any exception into `False`
with the store unchanged. -/
def delete_objects {α φ : Type} (matchesF : φ → α → Bool) (store : List α)
    (filters : φ) (fault : Bool) : Except PyError (List α × Bool) :=
  if fault then .ok (store, false)
  else .ok (store.filter (fun r => !(matchesF filters r)), true)

end DBManager

/-- A row of the `users` table: `username` and the stored `password`
column (which `ProxyAction.add_obj` fills with a hash). -/
structure UserRec where
  username : String
  password : String
  deriving DecidableEq, Repr

/-- A row of the `units` table, restricted to the columns the proxy
logic touches: the unit's `login` and its stored `secret`. -/
structure UnitRec where
  login : String
  secret : String
  deriving DecidableEq, Repr

/-- A row of the `categories` table. -/
structure CategoryRec where
  name : String
  deriving DecidableEq, Repr

/-- A Python dict used as record data or as query filters: each key is
present (`some`) or absent (`none`). -/
structure DataDict where
  username : Option String := none
  password : Option String := none
  login : Option String := none
  secret : Option String := none
  name : Option String := none
  deriving DecidableEq, Repr

/-- The three tables behind the three entity managers, which share one
SQLite file in the source. -/
structure Stores where
  users : List UserRec := []
  units : List UnitRec := []
  categories : List CategoryRec := []
  deriving DecidableEq, Repr

/-- Which concrete `DBManager` subclass the proxy currently wraps;
`ProxyAction.__check_manager` is an `isinstance` test against these
disjoint leaf classes. -/
inductive Manager where
  | user
  | category
  | unit
  deriving DecidableEq, Repr

/-- Modelled from the spec: `db_manager/schemas.py` is not under `src/`.
The spec's User entity (§3) carries `username` and `password`; pydantic
validation fails when a required field is missing, and §4.5 lists the
fields `createRecord` requires.  Field order follows the spec's listing
(`username` before `password`), which fixes the order of
`_new_user.dict(include=...)` values in `add_obj`. -/
def validateUser (d : DataDict) : Option UserRec :=
  match d.username, d.password with
  | some u, some p => some ⟨u, p⟩
  | _, _ => none

/-- Modelled from the spec: the Unit schema requires `login` and a
cleartext `secret` (§3, §4.5); the optional fields play no role in any
claim and are omitted. -/
def validateUnit (d : DataDict) : Option UnitRec :=
  match d.login, d.secret with
  | some l, some s => some ⟨l, s⟩
  | _, _ => none

/-- Modelled from the spec: the Category schema requires `name` (§3). -/
def validateCategory (d : DataDict) : Option CategoryRec :=
  match d.name with
  | some n => some ⟨n⟩
  | none => none

/-- `filter_by(**filters)` against the `users` table: equality on every
present key. -/
def userMatches (f : DataDict) (r : UserRec) : Bool :=
  f.username.all (fun v => v == r.username) && f.password.all (fun v => v == r.password)

/-- `filter_by(**filters)` against the `units` table. -/
def unitMatches (f : DataDict) (r : UnitRec) : Bool :=
  f.login.all (fun v => v == r.login) && f.secret.all (fun v => v == r.secret)

/-- `query.update(data)` on a user row: overwrite the columns present in
`data`. -/
def applyUserData (d : DataDict) (r : UserRec) : UserRec :=
  { username := d.username.getD r.username, password := d.password.getD r.password }

namespace ProxyAction

/-- `ProxyAction.add_obj`, embedded with the bound manager, the stores and
the persistence-fault flag explicit.

* Bound to `UserManager`: `data` is validated by the User schema (an
  uncaught `ValidationError` if `username` or `password` is missing), the
  password field is replaced by `generate_hash(username + password)`, and
  the result is delegated to `create_obj`.
* Bound to `UnitManager`: `username` and `password` are popped (an
  uncaught `KeyError` if absent), the remainder is validated by the Unit
  schema, and the secret is encrypted — but the source rebinds the whole
  record to the ciphertext string (`_new_unit = self.manager.encrypt_value(...)`)
  and then calls `.dict()` on that `str`, so every call that reaches this
  point raises `AttributeError` before anything is persisted.
* Bound to any other manager: no transformation, direct delegation to
  `create_obj`. -/
def add_obj (m : Manager) (data : DataDict) (st : Stores) (fault : Bool) :
    Except PyError (Stores × Bool) :=
  match m with
  | .user =>
    match data.username, data.password with
    | some u, some p =>
      let hashed : DataDict :=
        { username := some u, password := some (DBManager.generate_hash (u ++ p)) }
      (DBManager.create_obj validateUser st.users hashed fault).map
        (fun r => ({ st with users := r.1 }, r.2))
    | _, _ => .error .validationError
  | .unit =>
    match data.username with
    | none => .error .keyError
    | some u =>
      match data.password with
      | none => .error .keyError
      | some p =>
        match validateUnit { data with username := none, password := none } with
        | none => .error .validationError
        | some rec =>
          let _ciphertext := DBManager.encrypt_value u p rec.secret
          .error .attributeError
  | .category =>
    (DBManager.create_obj validateCategory st.categories data fault).map
      (fun r => ({ st with categories := r.1 }, r.2))

/-- `ProxyAction.check_user_password`: `TypeError` unless bound to
`UserManager`, else truthiness of the first user row matching the
username together with `generate_hash(username + password)`. -/
def check_user_password (m : Manager) (username password : String) (st : Stores) :
    Except PyError Bool :=
  match m with
  | .user =>
    let pass_hash := DBManager.generate_hash (username ++ password)
    .ok (DBManager.get_obj userMatches st.users
      { username := some username, password := some pass_hash }).isSome
  | _ => .error .typeError

/-- `ProxyAction.get_secret`, returning the result together with the
filters dict as the caller sees it afterwards (the source pops keys from
the caller's dict in place).

`TypeError` unless bound to `UnitManager`; then `filters.pop('username')`
and `filters.pop('password')` raise `KeyError` when the key is absent.
When both pops succeed the source calls `self.manager.get_obj(**filters)`,
unpacking the remaining filters as keyword arguments of
`get_obj(self, filters: dict)` — a call that raises `TypeError` for every
possible remainder (unexpected keyword argument, or missing positional
argument when the remainder is empty), so the lookup, the `IndexError`
branch and the decryption are unreachable. -/
def get_secret (m : Manager) (filters : DataDict) (_st : Stores) :
    Except PyError String × DataDict :=
  match m with
  | .user | .category => (.error .typeError, filters)
  | .unit =>
    match filters.username with
    | none => (.error .keyError, filters)
    | some _u =>
      let f1 : DataDict := { filters with username := none }
      match f1.password with
      | none => (.error .keyError, f1)
      | some _p => (.error .typeError, { f1 with password := none })

end ProxyAction

/-- A row of the legacy `users` table in `database_manager/models.py`:
surrogate `id`, unique `user` name, stored password hash. -/
structure LegacyUser where
  id : Nat
  user : String
  password : String
  deriving DecidableEq, Repr

/-- A row of the legacy `units` table: `user_id` referencing `users.id`
(declared `ondelete="CASCADE"`), `login` and `password`. -/
structure LegacyUnit where
  user_id : Nat
  login : String
  password : String
  deriving DecidableEq, Repr

/-- The legacy database of `database_manager/models.py`. -/
structure LegacyDB where
  users : List LegacyUser := []
  units : List LegacyUnit := []
  deriving DecidableEq, Repr

namespace SQLAlchemyManager

/-- `SQLAlchemyManager.add_user`: insert a user whose stored password is
`get_hash(user + password)`. -/
def add_user (st : LegacyDB) (nextId : Nat) (user password : String) : LegacyDB :=
  { st with users := st.users ++ [⟨nextId, user, EncModels.get_hash (user ++ password)⟩] }

/-- `SQLAlchemyManager.del_user`:
`session.query(User).filter(User.user == self.user).delete()` followed by
`commit()`.  `Query.delete()` is a bulk DELETE against `users` only: the
ORM-level `cascade="all, delete"` of the `Unit.user` relationship does not
apply to bulk deletes, and the `ON DELETE CASCADE` declared on the foreign
key is not enforced because SQLite leaves `foreign_keys` off and the code
never issues the pragma.  The embedding therefore removes matching users
and leaves `units` untouched. -/
def del_user (st : LegacyDB) (username : String) : LegacyDB :=
  { st with users := st.users.filter (fun u => !(u.user == username)) }

end SQLAlchemyManager

/-! ## Helper lemmas -/

/-- The symbolic hash is injective, so two verifiers derived from the
same username and different passwords differ. -/
theorem hash_cancel {u p p' : String}
    (h : DBManager.generate_hash (u ++ p) = DBManager.generate_hash (u ++ p')) :
    p = p' := by
  apply String.ext
  have h2 := congrArg String.data h
  simp only [DBManager.generate_hash, EncModels.get_hash, String.data_append] at h2
  exact List.append_cancel_left (List.append_cancel_left h2)

/-- Decrypting with the encrypting key recovers the plaintext. -/
theorem decrypt_encrypt (key raw : String) :
    AESCipher.decrypt key (AESCipher.encrypt key raw) = .ok raw := by
  have hlen : (key.data ++ [':']).length = key.data.length + 1 := by simp
  show (if (key.data ++ ':' :: raw.data).take (key.data.length + 1) = key.data ++ [':'] then
      Except.ok (String.mk ((key.data ++ ':' :: raw.data).drop (key.data.length + 1)))
    else Except.error PyError.decryptionError) = Except.ok raw
  rw [List.append_cons key.data ':' raw.data, List.take_left' hlen, List.drop_left' hlen,
    if_pos rfl]

/-- `check_user_password` on the User manager answers `True` exactly when
a user row carries the given name and the verifier derived from the given
credentials. -/
theorem check_user_password_ok_iff (u p : String) (st : Stores) :
    ProxyAction.check_user_password Manager.user u p st = .ok true ↔
      ∃ r ∈ st.users, r.username = u ∧
        r.password = DBManager.generate_hash (u ++ p) := by
  simp only [ProxyAction.check_user_password, DBManager.get_obj, Except.ok.injEq,
    List.find?_isSome, userMatches, Option.all_some, Bool.and_eq_true, beq_iff_eq]
  constructor
  · rintro ⟨r, hr, h1, h2⟩
    exact ⟨r, hr, h1.symm, h2.symm⟩
  · rintro ⟨r, hr, h1, h2⟩
    exact ⟨r, hr, h1.symm, h2.symm⟩

/-- `check_user_password` on the User manager answers `False` when no
user row carries the given name and derived verifier. -/
theorem check_user_password_ok_false (u p : String) (st : Stores)
    (h : ∀ r ∈ st.users,
      ¬(r.username = u ∧ r.password = DBManager.generate_hash (u ++ p))) :
    ProxyAction.check_user_password Manager.user u p st = .ok false := by
  have hnone : st.users.find? (userMatches
      { username := some u,
        password := some (DBManager.generate_hash (u ++ p)) }) = none := by
    rw [List.find?_eq_none]
    intro r hr hmatch
    simp only [userMatches, Option.all_some, Bool.and_eq_true, beq_iff_eq] at hmatch
    exact h r hr ⟨hmatch.1.symm, hmatch.2.symm⟩
  simp [ProxyAction.check_user_password, DBManager.get_obj, hnone]



/-! ## Claims -/

/-- C1: the claim says `add_obj` on the Unit manager encrypts the secret
in place and delegates the record to `create_obj`.  The source instead
rebinds the whole validated record to the ciphertext string and calls
`.dict()` on that `str`, so every such call — here for arbitrary
well-formed data, store and fault flag — raises `AttributeError` and
nothing reaches the store. -/
theorem C1_add_unit_attribute_error (u p l s : String) (st : Stores) (fault : Bool) :
    ProxyAction.add_obj .unit
      { username := some u, password := some p, login := some l, secret := some s }
      st fault = .error .attributeError :=
  rfl

/-- C2: decrypting with the key derived from the same `(username,
password)` pair the ciphertext produced by `encrypt_value` returns the
original secret. -/
theorem C2_encrypt_decrypt_roundtrip (u p s : String) :
    DBManager.decrypt_value u p (DBManager.encrypt_value u p s) = .ok s :=
  decrypt_encrypt (DBManager.secret_key u p) s

/-- C3: the claim says `get_secret` looks the Unit up by the remaining
filters, raising `NotFoundError` when absent and decrypting otherwise.
The source calls `self.manager.get_obj(**filters)`, unpacking the
remaining filters as keyword arguments of `get_obj(self, filters)`, so
every call — whatever the store contains — dies with `TypeError` before
the lookup; the `IndexError` and decryption branches are unreachable. -/
theorem C3_get_secret_type_error (u p l : String) (st : Stores) :
    (ProxyAction.get_secret .unit
      { username := some u, password := some p, login := some l } st).1
      = .error .typeError :=
  rfl

/-- C4: after a successful `add_obj` of a user (no prior row with that
username), `check_user_password` accepts the same credentials and rejects
any different password; the stored verifier is exactly
`generate_hash(username ++ password)`. -/
theorem C4_create_then_check (st : Stores) (u p p' : String)
    (hu : ∀ r ∈ st.users, r.username ≠ u) (hne : p ≠ p') :
    ProxyAction.add_obj .user { username := some u, password := some p } st false =
      .ok ({ st with
        users := st.users ++ [⟨u, DBManager.generate_hash (u ++ p)⟩] }, true) ∧
    ProxyAction.check_user_password .user u p
      { st with users := st.users ++ [⟨u, DBManager.generate_hash (u ++ p)⟩] }
      = .ok true ∧
    ProxyAction.check_user_password .user u p'
      { st with users := st.users ++ [⟨u, DBManager.generate_hash (u ++ p)⟩] }
      = .ok false := by
  refine ⟨rfl, ?_, ?_⟩
  · exact (check_user_password_ok_iff u p _).mpr
      ⟨⟨u, DBManager.generate_hash (u ++ p)⟩, by simp, rfl, rfl⟩
  · apply check_user_password_ok_false
    intro r hr hc
    rcases List.mem_append.mp hr with h1 | h2
    · exact hu r h1 hc.1
    · have hrec : r = ⟨u, DBManager.generate_hash (u ++ p)⟩ := by simpa using h2
      rw [hrec] at hc
      exact hne (hash_cancel hc.2)

/-- C4 witness at `username = "alice"`, `password = "secret1"`,
different password `"wrong"`, over the empty store. -/
theorem C4_create_then_check_witness :
    (∀ r ∈ ({} : Stores).users, r.username ≠ "alice") ∧
    ("secret1" : String) ≠ "wrong" ∧
    (ProxyAction.add_obj .user
        { username := some "alice", password := some "secret1" } {} false =
      .ok ({ users := [⟨"alice", DBManager.generate_hash ("alice" ++ "secret1")⟩] },
        true) ∧
    ProxyAction.check_user_password .user "alice" "secret1"
      { users := [⟨"alice", DBManager.generate_hash ("alice" ++ "secret1")⟩] }
      = .ok true ∧
    ProxyAction.check_user_password .user "alice" "wrong"
      { users := [⟨"alice", DBManager.generate_hash ("alice" ++ "secret1")⟩] }
      = .ok false) :=
  ⟨by simp [Stores.users], by decide,
    C4_create_then_check {} "alice" "secret1" "wrong" (by simp [Stores.users]) (by decide)⟩

/-- C5 counterexample: the claim says `create` converts persistence
exceptions into a boolean result; with valid data and a persistence
fault, `create_obj` instead lets the exception escape. -/
theorem C5_create_fault_escapes :
    DBManager.create_obj validateUser []
      { username := some "alice", password := some "pw" } true
      = .error .operationalError :=
  rfl

/-- C5 amended: `create_obj` validates before persisting and converts a
`ValidationError` (only) into `False` with the store unchanged; `update_objects`
and `delete_objects` convert every exception into a boolean result; but a
persistence exception during `create_obj` escapes to the caller. -/
theorem C5_store_error_policy {α δ φ : Type} (validate : δ → Option α)
    (matchesF : φ → α → Bool) (applyF : δ → α → α) (store : List α)
    (dBad dGood : δ) (a : α) (f : φ) (fault : Bool)
    (hBad : validate dBad = none) (hGood : validate dGood = some a) :
    DBManager.create_obj validate store dBad fault = .ok (store, false) ∧
    DBManager.create_obj validate store dGood false = .ok (store ++ [a], true) ∧
    DBManager.create_obj validate store dGood true = .error .operationalError ∧
    (∃ r, DBManager.update_objects matchesF applyF store f dBad fault = .ok r) ∧
    (∃ r, DBManager.delete_objects matchesF store f fault = .ok r) := by
  refine ⟨?_, ?_, ?_, ?_, ?_⟩
  · simp [DBManager.create_obj, hBad]
  · simp [DBManager.create_obj, hGood]
  · simp [DBManager.create_obj, hGood]
  · cases fault <;> exact ⟨_, rfl⟩
  · cases fault <;> exact ⟨_, rfl⟩

/-- C5 witness: invalid data (missing fields) versus valid data for the
User schema, over the empty store. -/
theorem C5_store_error_policy_witness :
    validateUser {} = none ∧
    validateUser { username := some "alice", password := some "pw" } =
      some ⟨"alice", "pw"⟩ ∧
    (DBManager.create_obj validateUser [] {} false = .ok ([], false) ∧
    DBManager.create_obj validateUser []
      { username := some "alice", password := some "pw" } false =
      .ok ([⟨"alice", "pw"⟩], true) ∧
    DBManager.create_obj validateUser []
      { username := some "alice", password := some "pw" } true =
      .error .operationalError ∧
    (∃ r, DBManager.update_objects userMatches applyUserData [] {} {} false = .ok r) ∧
    (∃ r, DBManager.delete_objects userMatches [] {} false = .ok r)) :=
  ⟨rfl, rfl, C5_store_error_policy validateUser userMatches applyUserData []
    {} { username := some "alice", password := some "pw" } ⟨"alice", "pw"⟩ {} false
    rfl rfl⟩

/-- C6: `check_user_password` raises `TypeError` whenever the proxy is
bound to a manager other than the User manager, and on the User manager
answers `True` exactly when a user row matches both the username and the
verifier `generate_hash(username ++ password)`. -/
theorem C6_check_password_contract (m : Manager) (hm : m ≠ .user)
    (u p : String) (st : Stores) :
    ProxyAction.check_user_password m u p st = .error .typeError ∧
    (ProxyAction.check_user_password .user u p st = .ok true ↔
      ∃ r ∈ st.users, r.username = u ∧
        r.password = DBManager.generate_hash (u ++ p)) := by
  constructor
  · cases m with
    | user => exact absurd rfl hm
    | category => rfl
    | unit => rfl
  · exact check_user_password_ok_iff u p st

/-- C6 witness on the Category manager and a one-user store. -/
theorem C6_check_password_contract_witness :
    Manager.category ≠ Manager.user ∧
    (ProxyAction.check_user_password Manager.category "alice" "pw"
      { users := [⟨"alice", DBManager.generate_hash ("alice" ++ "pw")⟩] }
      = .error .typeError ∧
    (ProxyAction.check_user_password Manager.user "alice" "pw"
      { users := [⟨"alice", DBManager.generate_hash ("alice" ++ "pw")⟩] }
      = .ok true ↔
      ∃ r ∈ ({ users := [⟨"alice", DBManager.generate_hash ("alice" ++ "pw")⟩] } :
        Stores).users, r.username = "alice" ∧
          r.password = DBManager.generate_hash ("alice" ++ "pw"))) :=
  ⟨by decide, C6_check_password_contract Manager.category (by decide) "alice" "pw"
    { users := [⟨"alice", DBManager.generate_hash ("alice" ++ "pw")⟩] }⟩

/-- C7 counterexample: the claim says `add_obj` on the Category manager
fails with `TypeMismatchError`; it instead delegates and succeeds. -/
theorem C7_category_add_no_type_error :
    ProxyAction.add_obj .category { name := some "work" } {} false =
      .ok ({ categories := [⟨"work"⟩] }, true) :=
  rfl

/-- C7 amended: bound to a manager that is neither User nor Unit,
`add_obj` performs no type check and no transformation: it delegates the
data unchanged to the store's `create_obj` and returns its outcome —
validation failure, an escaped persistence fault, or a successful
insertion — never a `TypeError`. -/
theorem C7_category_add_delegates (d : DataDict) (st : Stores) (fault : Bool) :
    ProxyAction.add_obj .category d st fault ≠ .error .typeError ∧
    ((validateCategory d = none ∧
        ProxyAction.add_obj .category d st fault = .ok (st, false)) ∨
     (fault = true ∧
        ProxyAction.add_obj .category d st fault = .error .operationalError) ∨
     (∃ c, validateCategory d = some c ∧
        ProxyAction.add_obj .category d st fault =
          .ok ({ st with categories := st.categories ++ [c] }, true))) := by
  cases hv : validateCategory d with
  | none =>
    refine ⟨?_, .inl ⟨rfl, ?_⟩⟩ <;>
      simp [ProxyAction.add_obj, DBManager.create_obj, hv, Except.map]
  | some c =>
    cases fault with
    | false =>
      refine ⟨?_, .inr (.inr ⟨c, rfl, ?_⟩)⟩ <;>
        simp [ProxyAction.add_obj, DBManager.create_obj, hv, Except.map]
    | true =>
      refine ⟨?_, .inr (.inl ⟨rfl, ?_⟩)⟩ <;>
        simp [ProxyAction.add_obj, DBManager.create_obj, hv, Except.map]

/-- C8: update and delete with filters matching no record succeed and
leave the store unchanged; they report failure exactly on a persistence
fault. -/
theorem C8_zero_match_update_delete {α φ δ : Type} (matchesF : φ → α → Bool)
    (applyF : δ → α → α) (store : List α) (f : φ) (d : δ)
    (hzero : ∀ r ∈ store, matchesF f r = false) :
    DBManager.update_objects matchesF applyF store f d false = .ok (store, true) ∧
    DBManager.delete_objects matchesF store f false = .ok (store, true) ∧
    DBManager.update_objects matchesF applyF store f d true = .ok (store, false) ∧
    DBManager.delete_objects matchesF store f true = .ok (store, false) := by
  refine ⟨?_, ?_, rfl, rfl⟩
  · have hmap : store.map (fun r => if matchesF f r then applyF d r else r) = store := by
      rw [List.map_congr_left (g := fun r => r), List.map_id']
      intro r hr
      simp [hzero r hr]
    simp [DBManager.update_objects, hmap]
  · have hfilter : store.filter (fun r => !(matchesF f r)) = store := by
      rw [List.filter_eq_self]
      intro r hr
      simp [hzero r hr]
    simp [DBManager.delete_objects, hfilter]

/-- C8 witness: a one-user store and filters on a different username. -/
theorem C8_zero_match_update_delete_witness :
    (∀ r ∈ [(⟨"bob", "h"⟩ : UserRec)],
      userMatches { username := some "alice" } r = false) ∧
    (DBManager.update_objects userMatches applyUserData [⟨"bob", "h"⟩]
        { username := some "alice" } { password := some "x" } false =
      .ok ([⟨"bob", "h"⟩], true) ∧
    DBManager.delete_objects userMatches [⟨"bob", "h"⟩]
        { username := some "alice" } false = .ok ([⟨"bob", "h"⟩], true) ∧
    DBManager.update_objects userMatches applyUserData [⟨"bob", "h"⟩]
        { username := some "alice" } { password := some "x" } true =
      .ok ([⟨"bob", "h"⟩], false) ∧
    DBManager.delete_objects userMatches [⟨"bob", "h"⟩]
        { username := some "alice" } true = .ok ([⟨"bob", "h"⟩], false)) :=
  ⟨by decide, C8_zero_match_update_delete userMatches applyUserData [⟨"bob", "h"⟩]
    { username := some "alice" } { password := some "x" } (by decide)⟩

/-- Legacy database holding user alice (id 1) and one unit she owns. -/
def aliceLegacyDB : LegacyDB :=
  { users := [⟨1, "alice", EncModels.get_hash ("alice" ++ "secret1")⟩],
    units := [⟨1, "github", "ciphertext"⟩] }

/-- C9: the claim says deleting a user also removes every Unit owned by
that user.  `del_user` issues a bulk `Query.delete()` against `users`
only; the ORM cascade declared on the relationship does not apply to bulk
deletes and SQLite's foreign-key enforcement is never switched on, so
alice's unit row survives her deletion and still references her id. -/
theorem C9_del_user_orphans_units :
    (SQLAlchemyManager.del_user aliceLegacyDB "alice").users = [] ∧
    (SQLAlchemyManager.del_user aliceLegacyDB "alice").units =
      [⟨1, "github", "ciphertext"⟩] := by
  constructor <;> rfl

/-- C10 counterexample: the claim says every call to `get_secret`,
including failing ones, removes both credential keys from the caller's
dict.  A call whose filters lack `username` raises `KeyError` at the
first pop and leaves the `password` entry in place. -/
theorem C10_missing_username_keeps_password :
    ProxyAction.get_secret .unit { password := some "p", login := some "l" } {} =
      (.error .keyError, { password := some "p", login := some "l" }) ∧
    (ProxyAction.get_secret .unit
      { password := some "p", login := some "l" } {}).2.password ≠ none :=
  ⟨rfl, by decide⟩

/-- C10 amended: a call lacking `username` raises `KeyError` with the
dict unmutated; a call with `username` but lacking `password` raises
`KeyError` having removed only `username`; a call with both removes both
from the caller's dict before the store query, which then raises
`TypeError` (the `get_obj(**filters)` call), the mutation persisting. -/
theorem C10_get_secret_pop_semantics (f g : DataDict) (st : Stores) (u p : String)
    (hu : f.username = some u) (hp : f.password = some p)
    (hg : g.username = none) :
    ProxyAction.get_secret .unit f st =
      (.error .typeError, { f with username := none, password := none }) ∧
    ProxyAction.get_secret .unit { f with password := none } st =
      (.error .keyError, { f with username := none, password := none }) ∧
    ProxyAction.get_secret .unit g st = (.error .keyError, g) := by
  refine ⟨?_, ?_, ?_⟩
  · simp [ProxyAction.get_secret, hu, hp]
  · simp [ProxyAction.get_secret, hu]
  · simp [ProxyAction.get_secret, hg]

/-- C10 witness at filters holding both credentials, and filters lacking
`username`. -/
theorem C10_get_secret_pop_semantics_witness :
    (⟨some "alice", some "pw", some "l", none, none⟩ : DataDict).username =
      some "alice" ∧
    (⟨some "alice", some "pw", some "l", none, none⟩ : DataDict).password =
      some "pw" ∧
    (⟨none, some "q", none, none, none⟩ : DataDict).username = none ∧
    (ProxyAction.get_secret .unit ⟨some "alice", some "pw", some "l", none, none⟩ {} =
      (.error .typeError, ⟨none, none, some "l", none, none⟩) ∧
    ProxyAction.get_secret .unit ⟨some "alice", none, some "l", none, none⟩ {} =
      (.error .keyError, ⟨none, none, some "l", none, none⟩) ∧
    ProxyAction.get_secret .unit ⟨none, some "q", none, none, none⟩ {} =
      (.error .keyError, ⟨none, some "q", none, none, none⟩)) :=
  ⟨rfl, rfl, rfl, C10_get_secret_pop_semantics
    ⟨some "alice", some "pw", some "l", none, none⟩
    ⟨none, some "q", none, none, none⟩ {} "alice" "pw" rfl rfl rfl⟩
